import Mathlib

/-!
Verification development for `gpu_undervolt.py`, a Linux GPU undervolting tool
with a one-shot enable/disable mode and a monitoring daemon.

Shallow embedding conventions:
* Python strings are modelled as `List Char` (a Python `str` is a sequence of
  code points); the entry points used in theorem statements accept `String`
  and go through `String.toList`.
* Python `float` values parsed from decimal telemetry text are modelled as
  exact rationals (`ℚ`), built with `mkRat` from integer arithmetic.
* External command invocations (`nvidia-smi`, `nvidia-settings`) are modelled
  as an inductive command type `Cmd`; a run of the actuator is the list of
  commands it issues, in order.
* The asyncio cooperative scheduler of the daemon is modelled as explicit
  step functions on a `DaemonState`: the telemetry-reader task and the tick
  loop each have a step function, and signal delivery is a third step.
-/

namespace GpuUndervolt

/-- Clock table entry of `gpu_info` in the source: stock core/boost clocks,
the undervolt clock offset, and the idle power threshold in watts. -/
structure ClockProfile where
  core : Int
  boost : Int
  offset : Int
  threshold : Int
deriving DecidableEq, Repr

/-- The static registry `gpu_info` from the source: model name to clocks. -/
def gpu_info : List (String × ClockProfile) :=
  [("NVIDIA GeForce RTX 3090",
    { core := 1395, boost := 1695, offset := 200, threshold := 120 })]

/-- One per-GPU record, as built by `get_gpus`: the dict
`\x7b'info': gpu_info[gpu], 'index': i\x7d`, whose keys `'power_draw'` and
`'pstate'` are added later by the telemetry reader (modelled as `Option`
fields that start out `none`, i.e. absent). -/
structure GpuRecord where
  index : Nat
  info : ClockProfile
  power_draw : Option ℚ := none
  pstate : Option Int := none
deriving DecidableEq, Repr

/-- Python whitespace for `str.strip` (space, tab, newline, carriage return,
vertical tab, form feed). -/
def pyIsSpace (c : Char) : Bool :=
  c = ' ' || c = '\t' || c = '\n' || c = '\r' || c.val = 11 || c.val = 12

/-- Python `str.strip()` on a character list. -/
def pyStrip (cs : List Char) : List Char :=
  ((cs.dropWhile pyIsSpace).reverse.dropWhile pyIsSpace).reverse

/-- Python `str.rstrip()` on a character list. -/
def pyRstrip (cs : List Char) : List Char :=
  (cs.reverse.dropWhile pyIsSpace).reverse

/-- Numeric value of a decimal digit character. -/
def digitVal (c : Char) : Nat := c.toNat - 48

/-- Value of a (known-valid) decimal digit string, most significant first. -/
def natFromDigits (cs : List Char) : Nat :=
  cs.foldl (fun n c => 10 * n + digitVal c) 0

/-- A non-empty all-digit character list parsed as a natural number;
`none` otherwise. -/
def pyDigits? (cs : List Char) : Option Nat :=
  if !cs.isEmpty && cs.all Char.isDigit then some (natFromDigits cs) else none

/-- An optional sign followed by a non-empty digit string, as an integer. -/
def signedDigits? : List Char → Option Int
  | '-' :: rest => (pyDigits? rest).map (fun n => -(n : Int))
  | '+' :: rest => (pyDigits? rest).map (fun n => (n : Int))
  | rest => (pyDigits? rest).map (fun n => (n : Int))

/-- Model of Python `int(s)` for base-10 string input: strip whitespace,
optional sign, non-empty digit string; anything else raises (is `none`).
Underscore digit grouping and non-decimal bases are not modelled. -/
def pyIntChars? (cs : List Char) : Option Int :=
  signedDigits? (pyStrip cs)

/-- Split a character list into its maximal leading digit run and the rest. -/
def takeDigits (cs : List Char) : List Char × List Char :=
  (cs.takeWhile Char.isDigit, cs.dropWhile Char.isDigit)

/-- Unsigned decimal mantissa `digits[.digits]`: returns the combined
numerator, the number of fractional digits, and the unread remainder;
`none` when there is no digit at all. -/
def mantissa? (cs : List Char) : Option (Nat × Nat × List Char) :=
  let ip := takeDigits cs
  match ip.2 with
  | '.' :: r =>
    let fp := takeDigits r
    if ip.1.isEmpty && fp.1.isEmpty then none
    else some (natFromDigits ip.1 * 10 ^ fp.1.length + natFromDigits fp.1,
               fp.1.length, fp.2)
  | _ => if ip.1.isEmpty then none else some (natFromDigits ip.1, 0, ip.2)

/-- Signed mantissa with optional decimal exponent, as an exact rational. -/
def pyFloatSigned? (sgn : Int) (cs : List Char) : Option ℚ :=
  match mantissa? cs with
  | none => none
  | some (m, fracLen, rest) =>
    let finish : Int → ℚ := fun e =>
      let k : Int := e - fracLen
      if 0 ≤ k then mkRat (sgn * m * 10 ^ k.toNat) 1
      else mkRat (sgn * m) (10 ^ (-k).toNat)
    match rest with
    | [] => some (finish 0)
    | 'e' :: r => (signedDigits? r).map finish
    | 'E' :: r => (signedDigits? r).map finish
    | _ => none

/-- Model of Python `float(s)` for decimal string input: strip whitespace,
optional sign, digits with optional fractional part and optional exponent.
The value is kept exact as a rational; `inf`/`nan` spellings and underscore
grouping are not modelled (the telemetry contract never produces them). -/
def pyFloatChars? (cs : List Char) : Option ℚ :=
  match pyStrip cs with
  | '-' :: r => pyFloatSigned? (-1) r
  | '+' :: r => pyFloatSigned? 1 r
  | r => pyFloatSigned? 1 r

/-- Python `s.split(',')`: split at every comma; `''.split(',') == ['']`. -/
def splitOnComma : List Char → List (List Char)
  | [] => [[]]
  | c :: rest =>
    let r := splitOnComma rest
    if c = ',' then [] :: r
    else
      match r with
      | [] => [[c]]
      | h :: t => (c :: h) :: t

/-- Python list indexing semantics: a negative index counts from the end;
out-of-range raises `IndexError` (is `none`). Returns the effective
non-negative position. -/
def pyListIdx (len : Nat) (i : Int) : Option Nat :=
  if 0 ≤ i then (if i.toNat < len then some i.toNat else none)
  else (if (-i).toNat ≤ len then some (len - (-i).toNat) else none)

/-- Helper of `get_gpus`: fold over the model-name lines reported by
`nvidia-smi --query-gpu=gpu_name`, starting at enumeration position `i`.
The first model absent from `gpu_info` raises (`Except.error` carrying that
model name, as the `TypeError('gpu "<name>" unknown')` of the source). -/
def get_gpusFrom : Nat → List String → Except String (List GpuRecord)
  | _, [] => Except.ok []
  | i, name :: rest =>
    match gpu_info.lookup name with
    | none => Except.error name
    | some info =>
      match get_gpusFrom (i + 1) rest with
      | Except.error e => Except.error e
      | Except.ok gs => Except.ok ({ index := i, info := info } :: gs)

/-- Model of `get_gpus()`: the external query's stdout lines are the
parameter `names`; each is resolved against `gpu_info` and numbered in
enumeration order. -/
def get_gpus (names : List String) : Except String (List GpuRecord) :=
  get_gpusFrom 0 names

/-- Body of the read loop of `run_power_draw` for one telemetry line:
`rstrip`, split on commas into exactly three fields, parse the index with
`int`, look the record up by that index, then assign
`gpu['power_draw'] = float(field.strip()[:-2])` and
`gpu['pstate'] = int(field.strip()[1:])`, in that order. Returns the
records after the line and whether the line was processed without raising;
on a raise, mutations already made (the `power_draw` assignment happens
before the `pstate` parse) are kept, as in the source. -/
def process_line (gpus : List GpuRecord) (line : List Char) :
    List GpuRecord × Bool :=
  match splitOnComma (pyRstrip line) with
  | [indexField, powerField, pstateField] =>
    match pyIntChars? indexField with
    | none => (gpus, false)
    | some i =>
      match pyListIdx gpus.length i with
      | none => (gpus, false)
      | some j =>
        match gpus[j]? with
        | none => (gpus, false)
        | some g =>
          match pyFloatChars? ((pyStrip powerField).dropLast.dropLast) with
          | none => (gpus, false)
          | some w =>
            match pyIntChars? ((pyStrip pstateField).drop 1) with
            | none => (gpus.set j { g with power_draw := some w }, false)
            | some p =>
              (gpus.set j { g with power_draw := some w, pstate := some p },
               true)
  | _ => (gpus, false)

/-- External control commands issued by the actuator, in source order:
`nvidia-smi -i <index> -pm <0|1>`, `nvidia-smi -i <index> -rgc`,
`nvidia-smi -i <index> -lgc <low>,<high>`, and one `nvidia-settings` run
setting `GPUPowerMizerMode` and
`GPUGraphicsClockOffsetAllPerformanceLevels` (the settings run carries no
GPU index in the source). -/
inductive Cmd where
  | persistence (index : Nat) (enabled : Bool)
  | resetClock (index : Nat)
  | lockClock (index : Nat) (lowMHz highMHz : Int)
  | settings (powerMizerMode : Int) (clockOffset : Int)
deriving DecidableEq, Repr

/-- Model of `undervolt_gpu(gpu, disable)`: the list of external commands it
issues, in order. Note the source's boolean is `disable`; the spec's
`applyUndervolt(gpu, enabled)` is `undervolt_gpu gpu (!enabled)`. -/
def undervolt_gpu (gpu : GpuRecord) (disable : Bool) : List Cmd :=
  if disable then
    [Cmd.persistence gpu.index false,
     Cmd.resetClock gpu.index,
     Cmd.settings 0 0]
  else
    [Cmd.persistence gpu.index true,
     Cmd.lockClock gpu.index (gpu.info.core - gpu.info.offset)
       (gpu.info.boost - gpu.info.offset),
     Cmd.settings 1 gpu.info.offset]

/-- Device-visible per-GPU state over the mocked external command layer. -/
structure DevState where
  persistenceMode : Bool
  clockLock : Option (Int × Int)
deriving DecidableEq, Repr

/-- Device-visible state of the whole machine: one `DevState` per GPU index
plus the global settings the `nvidia-settings` run writes. -/
@[ext]
structure DeviceModel where
  devs : Nat → DevState
  powerMizerMode : Int
  clockOffset : Int

/-- Effect of one external command on the device-visible state. -/
def applyCmd (m : DeviceModel) : Cmd → DeviceModel
  | Cmd.persistence i b =>
    { m with devs := fun j =>
        if j = i then { m.devs j with persistenceMode := b } else m.devs j }
  | Cmd.resetClock i =>
    { m with devs := fun j =>
        if j = i then { m.devs j with clockLock := none } else m.devs j }
  | Cmd.lockClock i lo hi =>
    { m with devs := fun j =>
        if j = i then { m.devs j with clockLock := some (lo, hi) }
        else m.devs j }
  | Cmd.settings mz off => { m with powerMizerMode := mz, clockOffset := off }

/-- Effect of a command sequence, applied left to right. -/
def applyCmds (m : DeviceModel) (cs : List Cmd) : DeviceModel :=
  cs.foldl applyCmd m

/-- Body of the daemon tick loop for one monitored GPU:
`if 'pstate' not in gpu or gpu['pstate'] > 2: continue` and otherwise
`undervolt_gpu(gpu, gpu['power_draw'] <= gpu['info']['threshold'])`.
Result: `none` models an uncaught `KeyError` (`power_draw` absent while
`pstate` is present and at most 2); `some none` is a skip; `some (some
(gpu, disable))` is an `undervolt_gpu` invocation with that flag. -/
def tick_action (gpu : GpuRecord) : Option (Option (GpuRecord × Bool)) :=
  match gpu.pstate with
  | none => some none
  | some p =>
    if 2 < p then some none
    else
      match gpu.power_draw with
      | none => none
      | some w =>
        some (some (gpu, decide (w ≤ ((gpu.info.threshold : Int) : ℚ))))

/-- One full pass of the daemon tick over the monitored indices (the
`for gpu in affected_gpus` loop): the `undervolt_gpu` invocations issued,
in order, and whether the pass completed without raising. -/
def daemon_tick_calls (gpus : List GpuRecord) :
    List Nat → List (GpuRecord × Bool) × Bool
  | [] => ([], true)
  | i :: rest =>
    match gpus[i]? with
    | none => ([], false)
    | some g =>
      match tick_action g with
      | none => ([], false)
      | some none => daemon_tick_calls gpus rest
      | some (some c) =>
        (c :: (daemon_tick_calls gpus rest).1, (daemon_tick_calls gpus rest).2)

/-- Outcome of `signal_handler()`: it stops the event loop, calls
`undervolt_gpu(gpu, True)` for every GPU of `affected_gpus`, and exits via
`sys.exit(0)`. -/
structure ShutdownResult where
  loopStopped : Bool
  calls : List (GpuRecord × Bool)
  exitCode : Nat
deriving DecidableEq, Repr

/-- Model of `signal_handler()` run over the monitored records. -/
def signal_handler (affected : List GpuRecord) : ShutdownResult :=
  { loopStopped := true,
    calls := affected.map (fun g => (g, true)),
    exitCode := 0 }

/-- Status of the `run_power_draw` asyncio task: still reading, finished
normally at end of stream, or terminated by an uncaught exception. The task
is created with `asyncio.create_task` and never awaited, so an exception
terminates only the task and is merely stored in it. -/
inductive ReaderStatus where
  | running
  | finished
  | crashed
deriving DecidableEq, Repr

/-- State of the cooperatively scheduled daemon process: the shared GPU
records, the monitored subset (`affected_gpus`, as positions into `gpus`,
since the Python lists alias the same record objects), the telemetry lines
not yet delivered by the stream, the reader task status, the
`undervolt_gpu` invocations issued so far, and the process exit code once
the process has exited. -/
structure DaemonState where
  gpus : List GpuRecord
  affectedIdx : List Nat
  pending : List (List Char)
  reader : ReaderStatus
  calls : List (GpuRecord × Bool)
  exited : Option Nat
deriving DecidableEq, Repr

/-- One scheduling slice of the `run_power_draw` task: consume the next
telemetry line, or finish at end of stream. A line whose processing raises
terminates the task (`crashed`); because the task is never awaited, the
exception does not propagate and the rest of the state is untouched. -/
def reader_step (s : DaemonState) : DaemonState :=
  match s.exited, s.reader, s.pending with
  | none, ReaderStatus.running, [] => { s with reader := ReaderStatus.finished }
  | none, ReaderStatus.running, l :: rest =>
    { s with gpus := (process_line s.gpus l).1,
             pending := rest,
             reader := if (process_line s.gpus l).2 then ReaderStatus.running
                       else ReaderStatus.crashed }
  | _, _, _ => s

/-- One iteration of the daemon tick loop of `daemon_main`. It runs
regardless of the reader task's status. An uncaught `KeyError` inside the
loop propagates out of `asyncio.run` and ends the process with a non-zero
exit code. -/
def daemon_step (s : DaemonState) : DaemonState :=
  match s.exited with
  | some _ => s
  | none =>
    { s with calls := s.calls ++ (daemon_tick_calls s.gpus s.affectedIdx).1,
             exited := if (daemon_tick_calls s.gpus s.affectedIdx).2 then none
                       else some 1 }

/-- The monitored records of a daemon state (`affected_gpus`). -/
def affectedRecords (s : DaemonState) : List GpuRecord :=
  s.affectedIdx.filterMap (fun i => s.gpus[i]?)

/-- Delivery of `SIGINT`/`SIGTERM` into the event loop: runs
`signal_handler` to completion and exits the process with its code. -/
def signal_step (s : DaemonState) : DaemonState :=
  match s.exited with
  | some _ => s
  | none =>
    { s with calls := s.calls ++ (signal_handler (affectedRecords s)).calls,
             exited := some (signal_handler (affectedRecords s)).exitCode }

/-- The CLI mode selector (`UsageMode` in the source). -/
inductive UsageMode where
  | init
  | enable
  | disable
  | daemon
deriving DecidableEq, Repr

/-- Fatal startup failures of `__main__`, each ending the process with a
non-zero exit code before any actuator command is issued. -/
inductive StartupError where
  | notRoot
  | unknownDevice (model : String)
  | noDevice
  | noDisplay
  | noAuthority
  | needsSetup
  | badGpuIndex
deriving DecidableEq, Repr

/-- Outcome of the `__main__` block: a fatal startup error (non-zero exit),
a normal exit with a code, or entry into the daemon loop; each carries the
`undervolt_gpu` invocations issued up to that point. -/
inductive MainOutcome where
  | fatal (err : StartupError) (calls : List (GpuRecord × Bool))
  | finished (code : Nat) (calls : List (GpuRecord × Bool))
  | daemonEntered (affected : List GpuRecord) (calls : List (GpuRecord × Bool))
deriving DecidableEq, Repr

/-- Exit code of a main outcome: every fatal error exits 1 (either an
explicit `exit(1)` or an uncaught exception); `none` while the daemon loop
is still running. -/
def mainExitCode : MainOutcome → Option Nat
  | MainOutcome.fatal _ _ => some 1
  | MainOutcome.finished c _ => some c
  | MainOutcome.daemonEntered _ _ => none

/-- Selection of `affected_gpus`: all records when no `-i` list was given,
otherwise `list(map(lambda x: gpus[x], args.gpu_list))` with Python list
indexing. -/
def selectAffected (gpus : List GpuRecord) :
    Option (List Int) → Option (List GpuRecord)
  | none => some gpus
  | some l => l.mapM (fun i => (pyListIdx gpus.length i).bind (gpus[·]?))

/-- Model of the `__main__` block up to (and excluding) the daemon loop:
root check, `get_gpus()`, empty check, display and Xauthority resolution
(modelled as the optional results of `get_display` / `get_xauthority_to_use`),
the `init` mode (called `start_setup` here), the two host-configuration
checks (modelled as the boolean results of `xwrapper_needs_modification` /
`xorg_needs_extra_config`), selection of `affected_gpus`, and the one-shot
enable/disable loop. -/
def main_run (euid : Int) (names : List String) (display : Option String)
    (xauthority : Option String) (xwrapperBad : Bool) (xorgMissing : Bool)
    (mode : UsageMode) (gpu_list : Option (List Int)) : MainOutcome :=
  if euid ≠ 0 then MainOutcome.fatal StartupError.notRoot []
  else
    match get_gpus names with
    | Except.error n => MainOutcome.fatal (StartupError.unknownDevice n) []
    | Except.ok gpus =>
      if gpus.length = 0 then MainOutcome.fatal StartupError.noDevice []
      else
        match display with
        | none => MainOutcome.fatal StartupError.noDisplay []
        | some _ =>
          match xauthority with
          | none => MainOutcome.fatal StartupError.noAuthority []
          | some _ =>
            if mode = UsageMode.init then MainOutcome.finished 0 []
            else if xwrapperBad then
              MainOutcome.fatal StartupError.needsSetup []
            else if xorgMissing then
              MainOutcome.fatal StartupError.needsSetup []
            else
              match selectAffected gpus gpu_list with
              | none => MainOutcome.fatal StartupError.badGpuIndex []
              | some affected =>
                if mode = UsageMode.enable ∨ mode = UsageMode.disable then
                  MainOutcome.finished 0
                    (affected.map
                      (fun g => (g, decide (mode = UsageMode.disable))))
                else MainOutcome.daemonEntered affected []

/-- Model of `int_list(arg)`:
`list(map(lambda x: int(x), sorted(list(set(arg.split(','))))))`.
`set` deduplicates (its iteration order is irrelevant because `sorted`
totally orders the distinct strings); `sorted` orders strings
lexicographically by code point, which the `≤` of `List Char` matches;
`int` raises (`none`) on a non-numeric field. -/
def int_list (arg : List Char) : Option (List Int) :=
  (List.insertionSort (· ≤ ·) (splitOnComma arg).dedup).mapM pyIntChars?

/-- The registry row for the RTX 3090, used by concrete test states. -/
def rtx3090 : ClockProfile :=
  { core := 1395, boost := 1695, offset := 200, threshold := 120 }

/-- Effect of the disable sequence on the device model, computed. -/
theorem applyCmds_undervolt_disable (m : DeviceModel) (g : GpuRecord) :
    applyCmds m (undervolt_gpu g true) =
      { devs := fun j =>
          if j = g.index then { persistenceMode := false, clockLock := none }
          else m.devs j,
        powerMizerMode := 0, clockOffset := 0 } := by
  ext j
  · show (applyCmd (applyCmd (applyCmd m
        (Cmd.persistence g.index false)) (Cmd.resetClock g.index))
        (Cmd.settings 0 0)).devs j = _
    by_cases hj : j = g.index <;> simp [applyCmd, hj]
  · rfl
  · rfl

/-- Effect of the enable sequence on the device model, computed. -/
theorem applyCmds_undervolt_enable (m : DeviceModel) (g : GpuRecord) :
    applyCmds m (undervolt_gpu g false) =
      { devs := fun j =>
          if j = g.index then
            { persistenceMode := true,
              clockLock := some (g.info.core - g.info.offset,
                                 g.info.boost - g.info.offset) }
          else m.devs j,
        powerMizerMode := 1, clockOffset := g.info.offset } := by
  ext j
  · show (applyCmd (applyCmd (applyCmd m
        (Cmd.persistence g.index true))
        (Cmd.lockClock g.index (g.info.core - g.info.offset)
          (g.info.boost - g.info.offset)))
        (Cmd.settings 1 g.info.offset)).devs j = _
    by_cases hj : j = g.index <;> simp [applyCmd, hj]
  · rfl
  · rfl

/-- C5: `applyUndervolt(gpu, enabled=true)` (source: `undervolt_gpu(gpu,
False)`) issues, in order, persistence mode on, a graphics-clock lock to
the range from `coreClockMHz - offsetMHz` to `boostClockMHz - offsetMHz`,
then the settings run with power-mizer mode 1 and clock offset `offsetMHz`;
for the profile with core 1395, boost 1695 and offset 200 the locked range
is 1195 to 1495 with offset 200 and mizer mode 1. -/
theorem enable_command_sequence :
    (∀ g : GpuRecord, undervolt_gpu g false =
      [Cmd.persistence g.index true,
       Cmd.lockClock g.index (g.info.core - g.info.offset)
         (g.info.boost - g.info.offset),
       Cmd.settings 1 g.info.offset]) ∧
    ∀ g : GpuRecord, g.info = rtx3090 →
      undervolt_gpu g false =
        [Cmd.persistence g.index true,
         Cmd.lockClock g.index 1195 1495,
         Cmd.settings 1 200] := by
  constructor
  · intro g; rfl
  · intro g hg
    simp [undervolt_gpu, hg, rtx3090]

/-- Witness for C5 at a concrete profile. -/
theorem enable_command_sequence_witness :
    (⟨0, rtx3090, none, none⟩ : GpuRecord).info = rtx3090 ∧
    undervolt_gpu ⟨0, rtx3090, none, none⟩ false =
      [Cmd.persistence 0 true, Cmd.lockClock 0 1195 1495,
       Cmd.settings 1 200] :=
  ⟨rfl, enable_command_sequence.2 ⟨0, rtx3090, none, none⟩ rfl⟩

/-- C6: `applyUndervolt(gpu, enabled=false)` (source: `undervolt_gpu(gpu,
True)`) issues, in order, persistence mode off, a clear of any clock lock,
then the settings run with power-mizer mode 0 and clock offset 0; and it is
safe from any prior device state: after it, the GPU's device-visible state
is persistence off with no lock, and the global settings are mizer mode 0
with offset 0 — including on a device that was never undervolted. -/
theorem disable_command_sequence :
    (∀ g : GpuRecord, undervolt_gpu g true =
      [Cmd.persistence g.index false,
       Cmd.resetClock g.index,
       Cmd.settings 0 0]) ∧
    ∀ (m : DeviceModel) (g : GpuRecord),
      (applyCmds m (undervolt_gpu g true)).devs g.index =
        { persistenceMode := false, clockLock := none } ∧
      (applyCmds m (undervolt_gpu g true)).powerMizerMode = 0 ∧
      (applyCmds m (undervolt_gpu g true)).clockOffset = 0 := by
  constructor
  · intro g; rfl
  · intro m g
    rw [applyCmds_undervolt_disable]
    refine ⟨?_, rfl, rfl⟩
    simp

/-- C9: for every GPU record and flag, running the `applyUndervolt` command
sequence twice in succession leaves the device-visible state identical to a
single run (the second run issues the same sequence and every command sets
absolute values, so the operation is idempotent on the mocked external
command layer). -/
theorem undervolt_idempotent (g : GpuRecord) (b : Bool) (m : DeviceModel) :
    applyCmds (applyCmds m (undervolt_gpu g b)) (undervolt_gpu g b) =
      applyCmds m (undervolt_gpu g b) := by
  cases b
  · rw [applyCmds_undervolt_enable, applyCmds_undervolt_enable]
    ext j
    · by_cases hj : j = g.index <;> simp [hj]
    · rfl
    · rfl
  · rw [applyCmds_undervolt_disable, applyCmds_undervolt_disable]
    ext j
    · by_cases hj : j = g.index <;> simp [hj]
    · rfl
    · rfl

/-- C1: on receipt of an interrupt or termination signal while the daemon
runs, the shutdown sequence stops the tick loop and issues exactly one
disable call (`undervolt_gpu(gpu, True)`, i.e. `applyUndervolt(gpu,
false)`) for every monitored GPU regardless of its last known state — N
monitored GPUs yield exactly N disable calls — and the process exits with
success status (code 0). -/
theorem shutdown_disables_every_monitored_gpu :
    (∀ affected : List GpuRecord,
      (signal_handler affected).loopStopped = true ∧
      (signal_handler affected).calls = affected.map (fun g => (g, true)) ∧
      (signal_handler affected).calls.length = affected.length ∧
      (signal_handler affected).calls.all (fun c => c.2) = true ∧
      (signal_handler affected).exitCode = 0) ∧
    ∀ s : DaemonState, s.exited = none →
      (signal_step s).calls =
        s.calls ++ (affectedRecords s).map (fun g => (g, true)) ∧
      (signal_step s).exited = some 0 := by
  refine ⟨fun affected => ⟨rfl, rfl, by simp [signal_handler],
    by simp [signal_handler], rfl⟩, ?_⟩
  intro s hs
  constructor <;> simp [signal_step, hs, signal_handler]

/-- Concrete monitored GPU for the shutdown witness, last seen undervolted
at high power draw. -/
def sigGpu : GpuRecord := ⟨0, rtx3090, some (mkRat 50 1), some 8⟩

/-- Concrete daemon state for the shutdown witness. -/
def sigState : DaemonState :=
  ⟨[sigGpu], [0], [], ReaderStatus.running, [], none⟩

/-- Witness for C1 on a concrete one-GPU daemon state. -/
theorem shutdown_disables_witness :
    sigState.exited = none ∧
    (signal_step sigState).calls =
      sigState.calls ++ (affectedRecords sigState).map (fun g => (g, true)) ∧
    (signal_step sigState).exited = some 0 :=
  ⟨rfl, shutdown_disables_every_monitored_gpu.2 sigState rfl⟩

/-- Every `undervolt_gpu` invocation issued by a completed tick pass comes
from a monitored record on which `tick_action` decided to act. -/
theorem daemon_tick_calls_mem (gpus : List GpuRecord) (idxs : List Nat)
    (i : Nat) (g : GpuRecord) (c : GpuRecord × Bool)
    (hmem : i ∈ idxs) (hg : gpus[i]? = some g)
    (hc : tick_action g = some (some c))
    (hok : (daemon_tick_calls gpus idxs).2 = true) :
    c ∈ (daemon_tick_calls gpus idxs).1 := by
  revert hmem hok
  induction idxs with
  | nil => intro hmem _; cases hmem
  | cons j rest ih =>
    intro hmem hok
    rcases List.mem_cons.mp hmem with hij | hrest
    · subst hij
      simp only [daemon_tick_calls, hg, hc] at hok ⊢
      exact List.mem_cons_self _ _
    · cases hgj : gpus[j]? with
      | none => simp [daemon_tick_calls, hgj] at hok
      | some gj =>
        cases hta : tick_action gj with
        | none => simp [daemon_tick_calls, hgj, hta] at hok
        | some o =>
          cases o with
          | none =>
            simp only [daemon_tick_calls, hgj, hta] at hok ⊢
            exact ih hrest hok
          | some cj =>
            simp only [daemon_tick_calls, hgj, hta] at hok ⊢
            exact List.mem_cons_of_mem _ (ih hrest hok)

/-- C2: in the daemon tick loop, for a monitored GPU whose performance
state is set and at most 2, the decision is `undervolt_gpu(gpu,
power_draw <= threshold)`: power draw at-or-below the idle threshold gives
a disable call (`applyUndervolt(gpu, false)`, the source flag `true`) —
in particular power exactly equal to the threshold disables — and power
strictly above it gives an enable call (`applyUndervolt(gpu, true)`, the
source flag `false`); a completed tick pass over monitored indices
containing the GPU issues that call. -/
theorem tick_threshold_decision (g : GpuRecord) (p : Int) (w : ℚ)
    (hp : g.pstate = some p) (hp2 : p ≤ 2) (hw : g.power_draw = some w) :
    tick_action g =
      some (some (g, decide (w ≤ (g.info.threshold : ℚ)))) ∧
    (w ≤ (g.info.threshold : ℚ) →
      tick_action g = some (some (g, true))) ∧
    (w = (g.info.threshold : ℚ) →
      tick_action g = some (some (g, true))) ∧
    ((g.info.threshold : ℚ) < w →
      tick_action g = some (some (g, false))) ∧
    ∀ (gpus : List GpuRecord) (idxs : List Nat) (i : Nat),
      gpus[i]? = some g → i ∈ idxs →
      (daemon_tick_calls gpus idxs).2 = true →
      (g, decide (w ≤ (g.info.threshold : ℚ))) ∈
        (daemon_tick_calls gpus idxs).1 := by
  have hbase : tick_action g =
      some (some (g, decide (w ≤ (g.info.threshold : ℚ)))) := by
    simp only [tick_action, hp, hw]
    rw [if_neg (not_lt.mpr hp2)]
  refine ⟨hbase, ?_, ?_, ?_, ?_⟩
  · intro h; rw [hbase]; simp [h]
  · intro h; rw [hbase]; simp [h]
  · intro h; rw [hbase]; simp [not_le.mpr h]
  · intro gpus idxs i hg hi hok
    exact daemon_tick_calls_mem gpus idxs i g _ hi hg hbase hok

/-- Concrete GPU for the threshold witness: active pstate P0, power draw
parsed from telemetry exactly equal to the 120 W threshold. -/
def tickGpu : GpuRecord := ⟨0, rtx3090, some (mkRat 1200 10), some 0⟩

/-- Witness for C2 at the threshold boundary: power exactly 120.0 W on a
120 W threshold yields a disable call. -/
theorem tick_threshold_witness :
    tickGpu.pstate = some 0 ∧ (0 : Int) ≤ 2 ∧
    tickGpu.power_draw = some (mkRat 1200 10) ∧
    mkRat 1200 10 = (tickGpu.info.threshold : ℚ) ∧
    tick_action tickGpu = some (some (tickGpu, true)) :=
  ⟨rfl, by decide, rfl, by decide,
   (tick_threshold_decision tickGpu 0 (mkRat 1200 10) rfl (by decide)
     rfl).2.2.1 (by decide)⟩

/-- The record inside an `undervolt_gpu` invocation decided by
`tick_action` is the record the decision was computed from. -/
theorem tick_action_call_self (g : GpuRecord) (c : GpuRecord × Bool)
    (h : tick_action g = some (some c)) : c.1 = g := by
  simp only [tick_action] at h
  rcases hps : g.pstate with _ | p <;> simp only [hps] at h
  · simp at h
  · by_cases hp : 2 < p
    · rw [if_pos hp] at h; simp at h
    · rw [if_neg hp] at h
      rcases hpw : g.power_draw with _ | w <;> simp only [hpw] at h
      · simp at h
      · simp only [Option.some.injEq] at h
        rw [← h]

/-- Every invocation in a tick pass's call list originates from some
monitored record via `tick_action`. -/
theorem daemon_tick_calls_source (gpus : List GpuRecord) (idxs : List Nat)
    (c : GpuRecord × Bool) (hmem : c ∈ (daemon_tick_calls gpus idxs).1) :
    ∃ i g, i ∈ idxs ∧ gpus[i]? = some g ∧
      tick_action g = some (some c) := by
  revert hmem
  induction idxs with
  | nil => intro hmem; simp [daemon_tick_calls] at hmem
  | cons j rest ih =>
    intro hmem
    cases hgj : gpus[j]? with
    | none => simp [daemon_tick_calls, hgj] at hmem
    | some gj =>
      cases hta : tick_action gj with
      | none => simp [daemon_tick_calls, hgj, hta] at hmem
      | some o =>
        cases o with
        | none =>
          simp only [daemon_tick_calls, hgj, hta] at hmem
          obtain ⟨i, g, hi, hg, hc⟩ := ih hmem
          exact ⟨i, g, List.mem_cons_of_mem _ hi, hg, hc⟩
        | some cj =>
          simp only [daemon_tick_calls, hgj, hta, List.mem_cons] at hmem
          rcases hmem with rfl | hmem
          · exact ⟨j, gj, List.mem_cons_self _ _, hgj, hta⟩
          · obtain ⟨i, g, hi, hg, hc⟩ := ih hmem
            exact ⟨i, g, List.mem_cons_of_mem _ hi, hg, hc⟩

/-- C4: in the daemon tick loop, a monitored GPU whose performance state is
unset or numerically greater than 2 is skipped: no `undervolt_gpu`
invocation mentioning it is issued by any tick pass, regardless of its
power draw, and a tick step never modifies the GPU records (or the
monitored set, or the pending telemetry). -/
theorem tick_skips_unset_or_high_pstate (g : GpuRecord)
    (h : g.pstate = none ∨ ∃ p, g.pstate = some p ∧ 2 < p) :
    tick_action g = some none ∧
    (∀ (gpus : List GpuRecord) (idxs : List Nat) (b : Bool),
      (g, b) ∉ (daemon_tick_calls gpus idxs).1) ∧
    ∀ s : DaemonState, (daemon_step s).gpus = s.gpus ∧
      (daemon_step s).affectedIdx = s.affectedIdx ∧
      (daemon_step s).pending = s.pending := by
  have hskip : tick_action g = some none := by
    rcases h with hn | ⟨p, hp, h2⟩
    · simp [tick_action, hn]
    · simp [tick_action, hp, if_pos h2]
  refine ⟨hskip, ?_, ?_⟩
  · intro gpus idxs b hmem
    obtain ⟨i, g', hi, hg, hc⟩ :=
      daemon_tick_calls_source gpus idxs (g, b) hmem
    obtain rfl : g = g' := tick_action_call_self g' (g, b) hc
    rw [hskip] at hc
    simp at hc
  · intro s
    cases hs : s.exited with
    | some c => simp [daemon_step, hs]
    | none => simp [daemon_step, hs]

/-- Concrete GPU for the skip witness: idle pstate P8, high power draw. -/
def skipGpu : GpuRecord := ⟨1, rtx3090, some (mkRat 300 1), some 8⟩

/-- Witness for C4: a P8 GPU is skipped even at 300 W power draw. -/
theorem tick_skip_witness :
    skipGpu.pstate = some 8 ∧ (2 : Int) < 8 ∧
    tick_action skipGpu = some none ∧
    (skipGpu, true) ∉ (daemon_tick_calls [skipGpu] [0]).1 :=
  ⟨rfl, by decide,
   (tick_skips_unset_or_high_pstate skipGpu
     (Or.inr ⟨8, rfl, by decide⟩)).1,
   (tick_skips_unset_or_high_pstate skipGpu
     (Or.inr ⟨8, rfl, by decide⟩)).2.1 [skipGpu] [0] true⟩

/-- C7: a telemetry line that parses as index `i`, power `x` (after
stripping whitespace and the two-character " W" unit suffix) and
performance state `n` (after stripping the leading "P") updates exactly the
record at position `i` — setting `power_draw` to `x` and `pstate` to `n` —
and leaves every other record unchanged. -/
theorem telemetry_updates_only_indexed_record (gpus : List GpuRecord)
    (line indexField powerField pstateField : List Char) (i : Int) (j : Nat)
    (g : GpuRecord) (w : ℚ) (p : Int)
    (hsplit : splitOnComma (pyRstrip line) =
      [indexField, powerField, pstateField])
    (hi : pyIntChars? indexField = some i)
    (hj : pyListIdx gpus.length i = some j)
    (hg : gpus[j]? = some g)
    (hw : pyFloatChars? ((pyStrip powerField).dropLast.dropLast) = some w)
    (hp : pyIntChars? ((pyStrip pstateField).drop 1) = some p) :
    process_line gpus line =
      (gpus.set j { g with power_draw := some w, pstate := some p },
       true) ∧
    (process_line gpus line).1[j]? =
      some { g with power_draw := some w, pstate := some p } ∧
    ∀ k, k ≠ j → (process_line gpus line).1[k]? = gpus[k]? := by
  have hlen : j < gpus.length := by
    by_contra hcon
    rw [List.getElem?_eq_none (le_of_not_lt hcon)] at hg
    cases hg
  have hpe : process_line gpus line =
      (gpus.set j { g with power_draw := some w, pstate := some p },
       true) := by
    simp only [process_line, hsplit, hi, hj, hg, hw, hp]
  refine ⟨hpe, ?_, ?_⟩
  · rw [hpe]
    exact List.getElem?_set_self hlen
  · intro k hk
    rw [hpe]
    exact List.getElem?_set_ne (Ne.symm hk)

/-- Three fresh records for the telemetry witness. -/
def w7gpus : List GpuRecord :=
  [⟨0, rtx3090, none, none⟩, ⟨1, rtx3090, none, none⟩,
   ⟨2, rtx3090, none, none⟩]

/-- Witness for C7: the line "2, 37.10 W, P0" updates only record 2. -/
theorem telemetry_update_witness :
    splitOnComma (pyRstrip "2, 37.10 W, P0".toList) =
      ["2".toList, " 37.10 W".toList, " P0".toList] ∧
    pyIntChars? "2".toList = some 2 ∧
    process_line w7gpus "2, 37.10 W, P0".toList =
      (w7gpus.set 2 ⟨2, rtx3090, some (mkRat 3710 100), some 0⟩, true) ∧
    (process_line w7gpus "2, 37.10 W, P0".toList).1[0]? = w7gpus[0]? :=
  ⟨by decide, by decide,
   (telemetry_updates_only_indexed_record w7gpus "2, 37.10 W, P0".toList
     "2".toList " 37.10 W".toList " P0".toList 2 2 ⟨2, rtx3090, none, none⟩
     (mkRat 3710 100) 0 (by decide) (by decide) (by decide) (by decide)
     (by decide) (by decide)).1,
   (telemetry_updates_only_indexed_record w7gpus "2, 37.10 W, P0".toList
     "2".toList " 37.10 W".toList " P0".toList 2 2 ⟨2, rtx3090, none, none⟩
     (mkRat 3710 100) 0 (by decide) (by decide) (by decide) (by decide)
     (by decide) (by decide)).2.2 0 (by decide)⟩

/-- A successful enumeration means every reported model was found in the
registry. -/
theorem get_gpusFrom_ok_all_known (names : List String) :
    ∀ (k : Nat) (gs : List GpuRecord),
      get_gpusFrom k names = Except.ok gs →
      ∀ n ∈ names, gpu_info.lookup n ≠ none := by
  induction names with
  | nil => intro k gs _ n hn; cases hn
  | cons m rest ih =>
    intro k gs hok n hn
    simp only [get_gpusFrom] at hok
    cases hlk : gpu_info.lookup m with
    | none => simp [hlk] at hok
    | some info =>
      simp only [hlk] at hok
      cases hrec : get_gpusFrom (k + 1) rest with
      | error e => simp [hrec] at hok
      | ok gs' =>
        rcases List.mem_cons.mp hn with rfl | hn'
        · simp [hlk]
        · exact ih (k + 1) gs' hrec n hn'

/-- A failed enumeration carries a reported model name that is absent from
the registry. -/
theorem get_gpusFrom_error_mem (names : List String) :
    ∀ (k : Nat) (n : String), get_gpusFrom k names = Except.error n →
      n ∈ names ∧ gpu_info.lookup n = none := by
  induction names with
  | nil => intro k n h; simp [get_gpusFrom] at h
  | cons m rest ih =>
    intro k n h
    simp only [get_gpusFrom] at h
    cases hlk : gpu_info.lookup m with
    | none =>
      simp only [hlk, Except.error.injEq] at h
      subst h
      exact ⟨List.mem_cons_self _ _, hlk⟩
    | some info =>
      simp only [hlk] at h
      cases hrec : get_gpusFrom (k + 1) rest with
      | error e =>
        simp only [hrec, Except.error.injEq] at h
        subst h
        obtain ⟨hm, hl⟩ := ih (k + 1) e hrec
        exact ⟨List.mem_cons_of_mem _ hm, hl⟩
      | ok gs => simp [hrec] at h

/-- C8: an enumeration reporting a model name absent from the registry
makes startup fail with the unknown-device error carrying that name and no
actuator invocation issued; an empty enumeration makes startup fail with
the no-device error (exit code 1, non-zero) with no actuator invocation;
and any enumeration that succeeds had every model in the registry. -/
theorem startup_fails_before_actuator (names : List String)
    (display xauthority : Option String) (xwrapperBad xorgMissing : Bool)
    (mode : UsageMode) (gpu_list : Option (List Int)) :
    (∀ n : String, get_gpus names = Except.error n →
      n ∈ names ∧ gpu_info.lookup n = none ∧
      main_run 0 names display xauthority xwrapperBad xorgMissing mode
        gpu_list = MainOutcome.fatal (StartupError.unknownDevice n) []) ∧
    (∀ gs : List GpuRecord, get_gpus names = Except.ok gs →
      ∀ n ∈ names, gpu_info.lookup n ≠ none) ∧
    (∀ (err : StartupError) (calls : List (GpuRecord × Bool)),
      mainExitCode (MainOutcome.fatal err calls) = some 1) ∧
    main_run 0 [] display xauthority xwrapperBad xorgMissing mode
      gpu_list = MainOutcome.fatal StartupError.noDevice [] := by
  refine ⟨?_, ?_, fun _ _ => rfl, rfl⟩
  · intro n h
    obtain ⟨hm, hl⟩ := get_gpusFrom_error_mem names 0 n h
    refine ⟨hm, hl, ?_⟩
    simp [main_run, h]
  · intro gs h
    exact get_gpusFrom_ok_all_known names 0 gs h

/-- Witness for C8 with a model name absent from the registry. -/
theorem startup_unknown_witness :
    get_gpus ["AMD Radeon RX 580"] =
      Except.error "AMD Radeon RX 580" ∧
    main_run 0 ["AMD Radeon RX 580"] none none false false
      UsageMode.daemon none =
      MainOutcome.fatal
        (StartupError.unknownDevice "AMD Radeon RX 580") [] :=
  ⟨rfl,
   ((startup_fails_before_actuator ["AMD Radeon RX 580"] none none false
     false UsageMode.daemon none).1 "AMD Radeon RX 580" rfl).2.2⟩

/-- C10: `int_list` deduplicates the comma-separated fields and sorts them
as strings (lexicographically by code point) before converting each to an
integer, so the output follows string order, not numeric order: the input
"2,10" yields the numerically descending list with 10 first and 2 second. -/
theorem int_list_sorts_by_string_order :
    int_list "2,10".toList = some [10, 2] ∧
    (∀ arg : List Char,
      List.Sorted (· ≤ ·)
        (List.insertionSort (· ≤ ·) (splitOnComma arg).dedup) ∧
      (List.insertionSort (· ≤ ·) (splitOnComma arg).dedup).Nodup ∧
      (∀ s : List Char,
        s ∈ List.insertionSort (· ≤ ·) (splitOnComma arg).dedup ↔
          s ∈ splitOnComma arg) ∧
      int_list arg =
        (List.insertionSort (· ≤ ·) (splitOnComma arg).dedup).mapM
          pyIntChars?) ∧
    ¬ List.Sorted (· ≤ ·) [(10 : Int), 2] := by
  refine ⟨by decide, ?_, by decide⟩
  intro arg
  refine ⟨List.sorted_insertionSort _ _, ?_, ?_, rfl⟩
  · exact ((List.perm_insertionSort _ _).nodup_iff).mpr
      (List.nodup_dedup _)
  · intro s
    exact ((List.perm_insertionSort _ _).mem_iff).trans List.mem_dedup

/-- Witness for C10 at the concrete input of the claim. -/
theorem int_list_witness : int_list "2,10".toList = some [10, 2] :=
  int_list_sorts_by_string_order.1

/-- Concrete GPU and daemon state on which a malformed telemetry line
arrives. -/
def crashGpu : GpuRecord := ⟨0, rtx3090, none, none⟩

/-- One-GPU daemon state whose next pending telemetry line is malformed. -/
def crashState : DaemonState :=
  ⟨[crashGpu], [0], ["garbage".toList], ReaderStatus.running, [], none⟩

/-- Counterexample to C3 as stated: the malformed line "garbage" fails the
parsing contract (an unchecked parse failure), yet after the reader
processes it the process has not exited — the reader task is crashed but
the daemon tick still runs and the process continues — so a malformed line
does not abort the whole process. -/
theorem malformed_line_not_fatal :
    (process_line crashState.gpus "garbage".toList).2 = false ∧
    (reader_step crashState).reader = ReaderStatus.crashed ∧
    (reader_step crashState).exited = none ∧
    (daemon_step (reader_step crashState)).exited = none ∧
    reader_step (reader_step crashState) = reader_step crashState := by
  decide

/-- C3 (amended): a telemetry line that fails the parsing contract causes
an unchecked parse failure that permanently terminates the telemetry
reader task — the line is not skipped and no further telemetry is ever
processed — while the daemon tick loop and the process itself continue
running (the task is created but never awaited, so its stored exception
aborts nothing else). -/
theorem malformed_line_kills_reader_only (s : DaemonState) (l : List Char)
    (rest : List (List Char)) (hrun : s.reader = ReaderStatus.running)
    (hex : s.exited = none) (hpend : s.pending = l :: rest)
    (hbad : (process_line s.gpus l).2 = false) :
    (reader_step s).reader = ReaderStatus.crashed ∧
    (reader_step s).exited = none ∧
    (reader_step s).pending = rest ∧
    (∀ t : DaemonState, t.reader = ReaderStatus.crashed →
      reader_step t = t) ∧
    ((daemon_tick_calls (reader_step s).gpus
        (reader_step s).affectedIdx).2 = true →
      (daemon_step (reader_step s)).exited = none) := by
  have hstep : reader_step s =
      { s with gpus := (process_line s.gpus l).1, pending := rest,
               reader := ReaderStatus.crashed } := by
    simp only [reader_step, hex, hrun, hpend, hbad]
    simp
  refine ⟨?_, ?_, ?_, ?_, ?_⟩
  · rw [hstep]
  · rw [hstep]; exact hex
  · rw [hstep]
  · intro t ht
    cases hte : t.exited with
    | some c => simp [reader_step, hte]
    | none =>
      cases htp : t.pending with
      | nil => simp [reader_step, hte, ht, htp]
      | cons a as => simp [reader_step, hte, ht, htp]
  · intro hok
    have hex2 : (reader_step s).exited = none := by rw [hstep]; exact hex
    simp [daemon_step, hex2, hok]

/-- Witness for the amended C3 on the concrete malformed line. -/
theorem malformed_line_witness :
    crashState.reader = ReaderStatus.running ∧
    (process_line crashState.gpus "garbage".toList).2 = false ∧
    (reader_step crashState).reader = ReaderStatus.crashed ∧
    (reader_step crashState).exited = none :=
  ⟨rfl, by decide,
   (malformed_line_kills_reader_only crashState "garbage".toList [] rfl rfl
     rfl (by decide)).1,
   (malformed_line_kills_reader_only crashState "garbage".toList [] rfl rfl
     rfl (by decide)).2.1⟩

end GpuUndervolt
